import Mathlib

/-!
Verification of the secapi scan service against its specification.

The Python sources are shallowly embedded: strings are modelled as Lean
`String` / `List Char` (Python `str` is a sequence of code points), dicts
with known key sets as structures or association lists, and fallible code
as `Except`.  Character-level operations (`str.strip`, `str.upper`) are
modelled for the ASCII range, which covers every token and literal the
embedded code paths compare against.
-/

namespace Secapi

/-- ASCII whitespace stripped by Python `str.strip()`. -/
def isPySpace (c : Char) : Bool :=
  c = ' ' || c = '\t' || c = '\n' || c = '\r' || c = Char.ofNat 11 || c = Char.ofNat 12

/-- Model of Python `str.strip()` on the character list. -/
def stripL (l : List Char) : List Char :=
  ((l.dropWhile isPySpace).reverse.dropWhile isPySpace).reverse

/-- Model of Python `str.strip()`. -/
def pyStrip (s : String) : String :=
  ⟨stripL s.data⟩

/-- Uppercasing of one character, as Python `str.upper()` acts on ASCII. -/
def upChar (c : Char) : Char :=
  if c.isLower then Char.ofNat (c.toNat - 32) else c

/-- Model of Python `str.upper()` (ASCII range). -/
def pyUpper (s : String) : String :=
  ⟨s.data.map upChar⟩

/-- The shell metacharacters rejected by both validators
(`["$", ";", "&", "|", "`", "\n", "\r"]` in the source). -/
def unsafeCharList : List Char :=
  ['$', ';', '&', '|', Char.ofNat 96, '\n', '\r']

/-- Python `any(char in s for char in [...])` on the character list. -/
def hasUnsafeChar (l : List Char) : Bool :=
  unsafeCharList.any (fun c => decide (c ∈ l))

/-- `BaseScanner.normalize_severity` (app/scanners/base.py): look up the
uppercased token in the severity table, defaulting to `"INFO"`.  The Python
dict literal repeats some keys; a dict literal keeps one entry per key, so the
table has exactly the seven keys below. -/
def normalize_severity (severity : String) : String :=
  let u := pyUpper severity
  if u = "CRITICAL" then "CRITICAL"
  else if u = "HIGH" then "HIGH"
  else if u = "MEDIUM" then "MEDIUM"
  else if u = "MODERATE" then "MEDIUM"
  else if u = "LOW" then "LOW"
  else if u = "INFO" then "INFO"
  else if u = "UNKNOWN" then "INFO"
  else "INFO"

/-- The keys of the severity table in `normalize_severity`. -/
def severityKeys : List String :=
  ["CRITICAL", "HIGH", "MEDIUM", "MODERATE", "LOW", "INFO", "UNKNOWN"]

/-- The five normalized severity values. -/
def severityValues : List String :=
  ["CRITICAL", "HIGH", "MEDIUM", "LOW", "INFO"]

/-! ### The request-time validator (`DockerScanRequest.validate_image`,
app/schemas/scan.py): emptiness, length and unsafe-character checks on the
raw string, returning the stripped string on success.  Pydantic turns a
raised `ValueError` into a 422 response before the endpoint body runs. -/

/-- `DockerScanRequest.validate_image`. -/
def validate_image (v : String) : Except String String :=
  if v = "" ∨ pyStrip v = "" then .error "Image cannot be empty"
  else if v.length > 500 then .error "Image name too long"
  else if hasUnsafeChar v.data then .error "Invalid characters in image name"
  else .ok (pyStrip v)

/-! ### The execution-time validator (`TrivyScanner.validate_input`,
app/scanners/trivy.py) and its image-reference regex `IMAGE_RE`.

`IMAGE_RE` is compiled with `re.IGNORECASE`, so every character class also
admits the opposite case.  The pattern is a concatenation of greedy pieces
`host? namespace? name tag? digest?`; the model below reproduces the
backtracking engine's preference order (an optional group is tried present
first, `+` tries the longest repetition first) and reports the `host`
capture group of the match that order finds first.  `\w` is modelled over
ASCII, which covers every string these theorems evaluate. -/

def isDigitC (c : Char) : Bool := '0' ≤ c && c ≤ '9'

def isAlphaC (c : Char) : Bool := ('a' ≤ c && c ≤ 'z') || ('A' ≤ c && c ≤ 'Z')

/-- `[a-z0-9.-]` with IGNORECASE. -/
def hostC (c : Char) : Bool := isAlphaC c || isDigitC c || c = '.' || c = '-'

/-- `[a-z0-9_]` with IGNORECASE (namespace and digest algorithm). -/
def nsC (c : Char) : Bool := isAlphaC c || isDigitC c || c = '_'

/-- `[a-z0-9_-]` with IGNORECASE. -/
def nameC (c : Char) : Bool := nsC c || c = '-'

/-- `[\w.-]` (ASCII). -/
def tagC (c : Char) : Bool := nsC c || c = '.' || c = '-'

/-- `[a-f0-9]` with IGNORECASE. -/
def hexC (c : Char) : Bool := isDigitC c || ('a' ≤ c && c ≤ 'f') || ('A' ≤ c && c ≤ 'F')

/-- The candidate (consumed, rest) splits of a greedy `cls+`, longest first. -/
def plusSplits (cls : Char → Bool) (l : List Char) : List (List Char × List Char) :=
  let m := (l.takeWhile cls).length
  (List.range m).map (fun j => (l.take (m - j), l.drop (m - j)))

/-- Match `(?:@(?P<digest>[a-z0-9_]+:[a-f0-9]+))?$`. -/
def matchDigestOpt : List Char → Bool
  | [] => true
  | '@' :: rest =>
    (plusSplits nsC rest).any (fun pr =>
      match pr.2 with
      | ':' :: rest2 => (plusSplits hexC rest2).any (fun pr2 => pr2.2.isEmpty)
      | _ => false)
  | _ => false

/-- Match `(?::(?P<tag>[\w.-]+))?` followed by the digest part and `$`. -/
def matchTagOpt (l : List Char) : Bool :=
  (match l with
   | ':' :: rest => (plusSplits tagC rest).any (fun pr => matchDigestOpt pr.2)
   | _ => false)
  || matchDigestOpt l

/-- Match `(?P<name>[a-z0-9_-]+)` followed by tag/digest and `$`. -/
def matchName (l : List Char) : Bool :=
  (plusSplits nameC l).any (fun pr => matchTagOpt pr.2)

/-- Match `(?P<namespace>[a-z0-9_]+/)?` followed by name, tag/digest, `$`. -/
def matchNsName (l : List Char) : Bool :=
  ((plusSplits nsC l).any (fun pr =>
    match pr.2 with
    | '/' :: rest => matchName rest
    | _ => false))
  || matchName l

/-- Match `(?P<host>[a-z0-9.-]+(:[0-9]+)?/)` followed by the remainder of the
pattern, returning the text of the `host` group on success. -/
def matchHost (l : List Char) : Option (List Char) :=
  (plusSplits hostC l).findSome? (fun pr =>
    ((match pr.2 with
      | ':' :: r =>
        (plusSplits isDigitC r).findSome? (fun pr2 =>
          match pr2.2 with
          | '/' :: rest =>
            if matchNsName rest then some (pr.1 ++ ':' :: (pr2.1 ++ ['/'])) else none
          | _ => none)
      | _ => none) :
      Option (List Char)).orElse
    (fun _ =>
      match pr.2 with
      | '/' :: rest => if matchNsName rest then some (pr.1 ++ ['/']) else none
      | _ => none))

/-- `IMAGE_RE.match`: `none` when the string does not match; `some hostGroup`
when it does, where `hostGroup` is `match.group("host")` (`none` for an
absent group, as in Python). -/
def imageMatch (l : List Char) : Option (Option (List Char)) :=
  match matchHost l with
  | some h => some (some h)
  | none => if matchNsName l then some none else none

/-- `ALLOWED_REGISTRIES` (app/scanners/trivy.py). -/
def allowedRegistries : List (List Char) :=
  ["docker.io".data, "registry-1.docker.io".data, "ghcr.io".data, "gcr.io".data,
   "quay.io".data, "public.ecr.aws".data, "mcr.microsoft.com".data, "".data]

/-- Python `host.rstrip("/")`. -/
def rstripSlashes (l : List Char) : List Char :=
  (l.reverse.dropWhile (fun c => c = '/')).reverse

/-- `TrivyScanner.validate_input`, on the `image` string of the input dict
(the dict-shape and string-type guards of the source always pass for a
string-valued image and are not modelled).  Success is the literal `True`
the source returns. -/
def trivy_validate_input (image : String) : Except String Bool :=
  let img := stripL image.data
  if img.isEmpty || decide (img.length > 500) then .error "Invalid image name"
  else if hasUnsafeChar img then .error "Invalid characters in image name"
  else
    match imageMatch img with
    | none => .error ("Invalid Docker image format: " ++ String.mk img)
    | some hostGroup =>
      let host := hostGroup.getD []
      if host ≠ [] ∧ rstripSlashes host ∉ allowedRegistries then
        .error ("Registry not allowed: " ++ String.mk host)
      else .ok true

/-! ### Scan submission (`submit_docker_scan`, app/api/v1/endpoints/scans.py)

Pydantic validates the request body — running `DockerScanRequest.validate_image`
— before the endpoint body executes; a raised `ValueError` becomes a 422
response and the handler never runs.  Otherwise the handler persists a
`pending` scan row (with the validated, i.e. stripped, image) and enqueues
the Celery task. -/

structure SubmittedScan where
  id : Nat
  user_id : Nat
  scan_type : String
  status : String
  input_image : String
deriving DecidableEq

/-- `submit_docker_scan`: 422 (the validator's error) with no persisted job,
or a persisted `pending` job. -/
def submit_docker_scan (image : String) (scanId userId : Nat) :
    Except String SubmittedScan :=
  match validate_image image with
  | .error e => .error e
  | .ok img =>
    .ok { id := scanId, user_id := userId, scan_type := "trivy",
          status := "pending", input_image := img }

/-! ### Result assembly (`BaseScanner.create_scan_result`, app/scanners/base.py)

Findings are Python dicts; `create_scan_result` reads only their
`"severity"` entry (`finding.get("severity", "INFO")`), so a finding is
modelled by that entry (`none` = key absent). -/

structure FindingD where
  severity : Option String
deriving DecidableEq

/-- The `summary` dict `{"critical": 0, "high": 0, "medium": 0, "low": 0,
"info": 0}`, whose key set is fixed. -/
structure Summary where
  critical : Nat
  high : Nat
  medium : Nat
  low : Nat
  info : Nat
deriving DecidableEq

def zeroSummary : Summary := ⟨0, 0, 0, 0, 0⟩

/-- The keys of the `summary` dict, in order. -/
def summaryKeysL : List String := ["critical", "high", "medium", "low", "info"]

/-- `summary[key] += 1` for `key` a key of the dict. -/
def bumpSummary (s : Summary) (key : String) : Summary :=
  if key = "critical" then { s with critical := s.critical + 1 }
  else if key = "high" then { s with high := s.high + 1 }
  else if key = "medium" then { s with medium := s.medium + 1 }
  else if key = "low" then { s with low := s.low + 1 }
  else if key = "info" then { s with info := s.info + 1 }
  else s

/-- The tally loop of `create_scan_result`: uppercase the finding's severity
(defaulting to `"INFO"`), and increment a bucket only when `severity in
summary`, i.e. when the uppercased token is one of the dict's keys. -/
def scanResultSummary (findings : List FindingD) : Summary :=
  findings.foldl
    (fun summary finding =>
      let severity := pyUpper (finding.severity.getD "INFO")
      if severity ∈ summaryKeysL then bumpSummary summary severity else summary)
    zeroSummary

def sumSummary (s : Summary) : Nat := s.critical + s.high + s.medium + s.low + s.info

/-- The unified result dict assembled by `create_scan_result` (the
`metadata` sub-dict holds a wall-clock timestamp and duration, which the
embedding does not model). -/
structure ScanResultRec where
  scan_type : String
  status : String
  scanner_version : String
  summary : Summary
  findings : List FindingD
deriving DecidableEq

/-- `create_scan_result` (timestamp/duration metadata omitted). -/
def create_scan_result (scan_type scanner_version : String)
    (findings : List FindingD) : ScanResultRec :=
  { scan_type := scan_type, status := "completed",
    scanner_version := scanner_version,
    summary := scanResultSummary findings, findings := findings }

/-- The repository's own test input for the tally
(`test_create_scan_result_with_findings`, tests/test_scanners/test_trivy.py),
which asserts `critical == 1`, `high == 2`, `medium == 1`, `low == 0`. -/
def testFindings : List FindingD :=
  [⟨some "CRITICAL"⟩, ⟨some "HIGH"⟩, ⟨some "HIGH"⟩, ⟨some "MEDIUM"⟩]

/-! ### Output decoding (`TrivyScanner._parse_trivy_output`,
app/scanners/trivy.py) -/

/-- JSON values, the result type of Python's `json.loads`. -/
inductive Json where
  | null
  | bool (b : Bool)
  | num (n : Int)
  | str (s : String)
  | arr (elems : List Json)
  | obj (fields : List (String × Json))

/-- `ScannerParseError`: its message and optional `raw_output` payload. -/
structure ParseErr where
  message : String
  raw_output : Option String
deriving DecidableEq

/-- `_parse_trivy_output`.  `loads` abstracts the external `json.loads`
(decoded value, or the decode error's message).  A list is wrapped as
`{"Results": list}`; any dict is returned as is; any other top-level value
raises `ScannerParseError` with no `raw_output` (that raise is inside the
`try` block but only `json.JSONDecodeError` is caught); a decode failure
raises `ScannerParseError` carrying `raw_output[:500]`. -/
def parse_trivy_output (loads : String → Except String Json) (raw : String) :
    Except ParseErr Json :=
  match loads raw with
  | .error e =>
    .error { message := "Failed to parse Trivy JSON output: " ++ e,
             raw_output := some ⟨raw.data.take 500⟩ }
  | .ok data =>
    match data with
    | .arr elems => .ok (.obj [("Results", .arr elems)])
    | .obj fields => .ok (.obj fields)
    | _ => .error { message := "Unexpected output format from Trivy",
                    raw_output := none }

/-- Whether a decoded JSON value is neither a list nor a dict. -/
def jsonTopScalar : Json → Bool
  | .arr _ => false
  | .obj _ => false
  | _ => true

/-! ### The scan job row and its status updates
(app/tasks/scan_tasks.py, app/db/models.py) -/

/-- The columns of the `scans` row that the lifecycle touches.  `results`
holds the deserialized result payload (`none` = SQL NULL); timestamps are
abstract instants. -/
structure ScanRow where
  status : String
  results : Option ScanResultRec
  error_message : Option String
  started_at : Option Nat
  completed_at : Option Nat
deriving DecidableEq

/-- `update_scan_status`: build the update dict — always `status`;
`started_at` when moving to `running`; `completed_at` when moving to
`completed`/`failed`; `error_message` and `results` only when truthy
(a non-empty string / dict; the result dict always has its five fixed keys,
so a present payload is always truthy) — and apply it to the row. -/
def update_scan_status (row : ScanRow) (now : Nat) (status : String)
    (error_message : Option String) (results : Option ScanResultRec) : ScanRow :=
  let r1 : ScanRow := { row with status := status }
  let r2 : ScanRow :=
    if status = "running" then { r1 with started_at := some now }
    else if status = "completed" ∨ status = "failed" then
      { r1 with completed_at := some now }
    else r1
  let r3 : ScanRow :=
    match error_message with
    | some m => if m ≠ "" then { r2 with error_message := some m } else r2
    | none => r2
  match results with
  | some res => { r3 with results := some res }
  | none => r3

/-- The outcome of the one `scanner.scan(...)` call a task delivery makes:
either the unified results dict the method returns, or the exception class
the call raises with the exception's message. -/
inductive ScanOutcome where
  | success (results : ScanResultRec)
  | validationFailure (msg : String)
  | timeoutFailure (msg : String)
  | execFailure (msg : String)
  | parseFailure (msg : String)
  | scannerFailure (msg : String)
  | unexpectedFailure (msg : String)

/-- What one delivery of the Celery task does: the final row, whether the
exception propagated out of the task (`raise`), and how many times
`scanner.scan` was invoked. -/
structure TaskDelivery where
  row : ScanRow
  raised : Bool
  scan_calls : Nat
deriving DecidableEq

/-- CPython's error message for applying `await` to a `dict`: the `TypeError`
raised at `results = await scanner.scan(input_data)` (app/tasks/scan_tasks.py),
because `TrivyScanner.scan` is a synchronous method returning a dict. -/
def awaitDictTypeErrorMsg : String :=
  "object dict can't be used in 'await' expression"

/-- `execute_trivy_scan` (app/tasks/scan_tasks.py), one delivery: update the
row to `running` (unconditionally — `update_scan_status` has no status
guard), invoke the scanner once, then classify.  Each failure arm marks the
row `failed` with its prefixed message and re-raises.  When the scanner
returns results, the task `await`s the synchronous method's dict, which
raises `TypeError`; the generic `except Exception` arm then marks the row
`failed` with the `Unexpected error:` prefix, discarding the results, so
the `completed` update with a payload is never executed.  The body contains
no retry call, so every delivery makes exactly one scanner invocation. -/
def execute_trivy_scan (row₀ : ScanRow) (tStart tEnd : Nat)
    (outcome : ScanOutcome) : TaskDelivery :=
  let running := update_scan_status row₀ tStart "running" none none
  match outcome with
  | .success _ =>
    { row := update_scan_status running tEnd "failed"
        (some ("Unexpected error: " ++ awaitDictTypeErrorMsg)) none,
      raised := true, scan_calls := 1 }
  | .validationFailure m =>
    { row := update_scan_status running tEnd "failed"
        (some ("Invalid input: " ++ m)) none,
      raised := true, scan_calls := 1 }
  | .timeoutFailure m =>
    { row := update_scan_status running tEnd "failed"
        (some ("Scan timed out: " ++ m)) none,
      raised := true, scan_calls := 1 }
  | .execFailure m =>
    { row := update_scan_status running tEnd "failed"
        (some ("Scan execution failed: " ++ m)) none,
      raised := true, scan_calls := 1 }
  | .parseFailure m =>
    { row := update_scan_status running tEnd "failed"
        (some ("Failed to parse scan output: " ++ m)) none,
      raised := true, scan_calls := 1 }
  | .scannerFailure m =>
    { row := update_scan_status running tEnd "failed"
        (some ("Scan error: " ++ m)) none,
      raised := true, scan_calls := 1 }
  | .unexpectedFailure m =>
    { row := update_scan_status running tEnd "failed"
        (some ("Unexpected error: " ++ m)) none,
      raised := true, scan_calls := 1 }

/-- The attribute names assigned by the `Configure retry settings` block of
app/core/celery.py.  `task_aut_retry_for` is the literal spelling in the
source; Celery's automatic retry is configured per task through the task
decorator (`autoretry_for=...`, `retry_kwargs=...`), which the
`execute_trivy_scan` decorator does not pass. -/
def celeryRetryConfKeys : List String :=
  ["task_aut_retry_for", "task_retry_kwargs", "task_retry_backoff",
   "task_retry_backoff_max"]

/-- The freshly persisted row of a submitted scan (status `pending`,
no payload, no error, no execution timestamps). -/
def initialScanRow : ScanRow :=
  { status := "pending", results := none, error_message := none,
    started_at := none, completed_at := none }

/-- The states a scan row can be observed in.  Submission persists the
`pending` row; each delivery of the Celery task first applies the
unconditional `running` update and then a terminal update.  The broker
options `task_acks_late = True` and `task_reject_on_worker_lost = True`
(app/core/celery.py) give at-least-once delivery, so a further delivery of
the same job can start from any previously observable row — including an
already-terminal one; neither the task nor `update_scan_status` guards
against that. -/
inductive ReachableRow : ScanRow → Prop where
  | created : ReachableRow initialScanRow
  | midDelivery {row : ScanRow} (h : ReachableRow row) (t : Nat) :
      ReachableRow (update_scan_status row t "running" none none)
  | afterDelivery {row : ScanRow} (h : ReachableRow row) (t₁ t₂ : Nat)
      (outcome : ScanOutcome) :
      ReachableRow ((execute_trivy_scan row t₁ t₂ outcome).row)

/-- The row of a job whose first delivery timed out (so the row was marked
`failed`), after the redelivered task has applied its unconditional
`running` update. -/
def redeliveredFailedRow : ScanRow :=
  update_scan_status
    ((execute_trivy_scan initialScanRow 3 7
        (.timeoutFailure "Scan timed out after 300 seconds")).row)
    11 "running" none none

/-! ### Deletion (`delete_scan`, app/api/v1/endpoints/scans.py) -/

/-- A stored scan row as the delete endpoint sees it. -/
structure StoredScan where
  id : Nat
  user_id : Nat
  status : String
deriving DecidableEq

/-- `delete_scan`: select the row by id scoped to the caller (404 when
absent or otherwise owned — the same error either way), refuse `pending`/
`running` rows with 400, otherwise delete the row (by primary key) and
return 204.  The result is the HTTP status code and the store afterwards. -/
def delete_scan (store : List StoredScan) (scanId userId : Nat) :
    Nat × List StoredScan :=
  match store.find? (fun r => r.id == scanId && r.user_id == userId) with
  | none => (404, store)
  | some scan =>
    if scan.status = "pending" ∨ scan.status = "running" then (400, store)
    else (204, store.filter (fun r => !(r.id == scanId)))

/-! ### API-key hashing (app/core/security.py)

`bcrypt.hashpw`/`bcrypt.checkpw` are external; they are abstracted by
function parameters (`bcryptHash` closes over the salt drawn in
`hash_api_key`). -/

/-- The UTF-8 encoding of a string, as Python `s.encode("utf-8")`. -/
def utf8Bytes (s : String) : List Nat :=
  (s.data.map (fun c => (String.utf8EncodeChar c).map UInt8.toNat)).flatten

/-- `hash_api_key`: truncate the encoded key to 72 bytes (bcrypt's limit)
before hashing. -/
def hash_api_key (bcryptHash : List Nat → String) (api_key : String) : String :=
  let api_key_bytes := utf8Bytes api_key
  let api_key_bytes :=
    if api_key_bytes.length > 72 then api_key_bytes.take 72 else api_key_bytes
  bcryptHash api_key_bytes

/-- `verify_api_key`: the same truncation, then `bcrypt.checkpw`. -/
def verify_api_key (bcryptCheck : List Nat → String → Bool)
    (api_key hashed_key : String) : Bool :=
  let api_key_bytes := utf8Bytes api_key
  let api_key_bytes :=
    if api_key_bytes.length > 72 then api_key_bytes.take 72 else api_key_bytes
  bcryptCheck api_key_bytes hashed_key

/-- A concrete stand-in for `bcrypt.hashpw(·, salt)` at a fixed salt, used
only to witness the truncation theorem. -/
def toyBcryptHash (b : List Nat) : String :=
  ⟨(b.map (fun n => Char.ofNat (n % 256)))⟩

/-- The matching stand-in for `bcrypt.checkpw`. -/
def toyBcryptCheck (b : List Nat) (hashed : String) : Bool :=
  hashed = toyBcryptHash b

/-- A 73-byte API key. -/
def longKeyA : String := ⟨List.replicate 73 'a'⟩

/-- A different API key agreeing with `longKeyA` on its first 72 bytes. -/
def longKeyB : String := ⟨List.replicate 72 'a' ++ ['X', 'Y', 'Z']⟩

/-! ### List-level facts about `stripL` -/

theorem stripL_eq (l : List Char) :
    stripL l = List.rdropWhile isPySpace (List.dropWhile isPySpace l) := rfl

theorem head?_dropWhile {p : Char → Bool} {l : List Char} {a : Char}
    (h : (List.dropWhile p l).head? = some a) : p a = false := by
  induction l with
  | nil => simp [List.dropWhile] at h
  | cons b rest ih =>
    rw [List.dropWhile_cons] at h
    by_cases hb : p b
    · rw [if_pos hb] at h
      exact ih h
    · rw [if_neg hb] at h
      simp only [List.head?_cons, Option.some.injEq] at h
      subst h
      simpa using hb

theorem dropWhile_eq_self_of_head? (p : Char → Bool) (l : List Char)
    (h : ∀ a, l.head? = some a → p a = false) : List.dropWhile p l = l := by
  cases l with
  | nil => rfl
  | cons a rest =>
    rw [List.dropWhile_cons, h a rfl]
    simp

theorem dropWhile_rdropWhile_of_dropWhile_eq {m : List Char}
    (hm : List.dropWhile isPySpace m = m) :
    List.dropWhile isPySpace (List.rdropWhile isPySpace m) =
      List.rdropWhile isPySpace m := by
  obtain ⟨t, ht⟩ := List.rdropWhile_prefix isPySpace m
  apply dropWhile_eq_self_of_head?
  intro a ha
  have hm' : m.head? = some a := by
    rw [← ht]
    cases hrd : List.rdropWhile isPySpace m with
    | nil => rw [hrd] at ha; simp at ha
    | cons b r =>
      rw [hrd] at ha
      simp only [List.head?_cons, Option.some.injEq] at ha
      subst ha
      rfl
  apply head?_dropWhile (p := isPySpace) (l := m)
  rw [hm]
  exact hm'

theorem stripL_idem (l : List Char) : stripL (stripL l) = stripL l := by
  rw [stripL_eq, stripL_eq,
    dropWhile_rdropWhile_of_dropWhile_eq (List.dropWhile_idempotent isPySpace l),
    List.rdropWhile_idempotent]

theorem stripL_sublist (l : List Char) : List.Sublist (stripL l) l := by
  rw [stripL_eq]
  exact (( List.rdropWhile_prefix isPySpace _).sublist).trans
    ((List.dropWhile_suffix isPySpace).sublist)

theorem stripL_length_le (l : List Char) : (stripL l).length ≤ l.length :=
  (stripL_sublist l).length_le

theorem mem_of_mem_stripL {c : Char} {l : List Char} (h : c ∈ stripL l) : c ∈ l :=
  (stripL_sublist l).subset h

/-! ### String-level corollaries of the strip lemmas -/

theorem pyStrip_idem (s : String) : pyStrip (pyStrip s) = pyStrip s := by
  show (⟨stripL (stripL s.data)⟩ : String) = ⟨stripL s.data⟩
  rw [stripL_idem]

theorem pyStrip_length_le (s : String) : (pyStrip s).length ≤ s.length :=
  stripL_length_le s.data

theorem hasUnsafeChar_stripL {d : List Char}
    (h : hasUnsafeChar (stripL d) = true) : hasUnsafeChar d = true := by
  simp only [hasUnsafeChar, List.any_eq_true, decide_eq_true_eq] at h ⊢
  obtain ⟨c, hc, hmem⟩ := h
  exact ⟨c, hc, mem_of_mem_stripL hmem⟩

theorem string_append_ne_empty {p : String} (hp : p.data ≠ []) (m : String) :
    p ++ m ≠ "" := by
  intro h
  have hd : p.data ++ m.data = [] := congrArg String.data h
  exact hp (List.append_eq_nil.mp hd).1

/-- `validate_image` succeeds exactly when the three request-time rules hold,
and then returns the stripped string. -/
theorem validate_image_ok_iff (v : String) :
    (validate_image v = .ok (pyStrip v) ↔
      (pyStrip v ≠ "" ∧ v.length ≤ 500 ∧ hasUnsafeChar v.data = false)) ∧
    (∀ y, validate_image v = .ok y → y = pyStrip v) := by
  constructor
  · unfold validate_image
    constructor
    · intro h
      split_ifs at h with h1 h2 h3
      refine ⟨?_, by omega, by simpa using h3⟩
      intro hstrip
      exact h1 (Or.inr hstrip)
    · rintro ⟨h1, h2, h3⟩
      rw [if_neg, if_neg (by omega), if_neg (by simp [h3])]
      rintro (hv | hs)
      · exact h1 (by rw [hv]; rfl)
      · exact h1 hs
  · intro y h
    unfold validate_image at h
    split_ifs at h
    exact (Except.ok.injEq _ _).mp h.symm

/-! ### Claim theorems -/

/-- C6: severity normalization is a pure total function into the five
normalized severities; it depends only on the case-folded token (hence is
case-insensitive); it maps CRITICAL→CRITICAL, HIGH→HIGH, MEDIUM→MEDIUM,
MODERATE→MEDIUM, LOW→LOW, INFO→INFO, UNKNOWN→INFO in any case; and every
token whose uppercasing is outside the table maps to INFO. -/
theorem normalize_severity_spec :
    (∀ s : String, normalize_severity s ∈ severityValues) ∧
    (∀ s t : String, pyUpper s = pyUpper t →
      normalize_severity s = normalize_severity t) ∧
    (normalize_severity "CRITICAL" = "CRITICAL" ∧
     normalize_severity "critical" = "CRITICAL" ∧
     normalize_severity "Critical" = "CRITICAL" ∧
     normalize_severity "HIGH" = "HIGH" ∧
     normalize_severity "high" = "HIGH" ∧
     normalize_severity "MEDIUM" = "MEDIUM" ∧
     normalize_severity "medium" = "MEDIUM" ∧
     normalize_severity "MODERATE" = "MEDIUM" ∧
     normalize_severity "moderate" = "MEDIUM" ∧
     normalize_severity "Moderate" = "MEDIUM" ∧
     normalize_severity "LOW" = "LOW" ∧
     normalize_severity "low" = "LOW" ∧
     normalize_severity "INFO" = "INFO" ∧
     normalize_severity "info" = "INFO" ∧
     normalize_severity "UNKNOWN" = "INFO" ∧
     normalize_severity "unknown" = "INFO" ∧
     normalize_severity "Unknown" = "INFO") ∧
    (∀ s : String, pyUpper s ∉ severityKeys → normalize_severity s = "INFO") := by
  refine ⟨?_, ?_, ?_, ?_⟩
  · intro s
    simp only [normalize_severity, severityValues]
    split_ifs <;> simp
  · intro s t h
    simp only [normalize_severity, h]
  · decide
  · intro s h
    simp only [severityKeys, List.mem_cons, List.not_mem_nil, or_false,
      not_or] at h
    obtain ⟨h1, h2, h3, h4, h5, h6, h7⟩ := h
    simp only [normalize_severity, if_neg h1, if_neg h2, if_neg h3, if_neg h4,
      if_neg h5, if_neg h6, if_neg h7]

/-- Witness for `normalize_severity_spec`: the out-of-table token
`"bogus"` maps to `"INFO"`. -/
theorem normalize_severity_spec_witness :
    pyUpper "bogus" ∉ severityKeys ∧ normalize_severity "bogus" = "INFO" :=
  ⟨by decide, normalize_severity_spec.2.2.2 "bogus" (by decide)⟩

/-- C3: a string the request-time image validator accepts is returned with
surrounding whitespace trimmed and no other modification, and re-validating
the returned value accepts it and returns it unchanged
(`validate(validate(x)) = validate(x)`). -/
theorem validate_image_trim_idempotent (x y : String)
    (h : validate_image x = .ok y) :
    y = pyStrip x ∧ validate_image y = .ok y := by
  have hy : y = pyStrip x := (validate_image_ok_iff x).2 y h
  subst hy
  refine ⟨rfl, ?_⟩
  have hok := (validate_image_ok_iff x).1.mp h
  have h3 : hasUnsafeChar (pyStrip x).data = false := by
    cases hu : hasUnsafeChar (pyStrip x).data with
    | false => rfl
    | true =>
      rw [hok.2.2.symm]
      exact (hasUnsafeChar_stripL hu).symm
  have := (validate_image_ok_iff (pyStrip x)).1.mpr
    ⟨by rw [pyStrip_idem]; exact hok.1,
     le_trans (pyStrip_length_le x) hok.2.1, h3⟩
  rw [pyStrip_idem] at this
  exact this

/-- Witness for `validate_image_trim_idempotent` at `" nginx:latest "`. -/
theorem validate_image_trim_idempotent_witness :
    validate_image " nginx:latest " = .ok "nginx:latest" ∧
    ("nginx:latest" : String) = pyStrip " nginx:latest " ∧
    validate_image "nginx:latest" = .ok "nginx:latest" :=
  ⟨rfl,
   (validate_image_trim_idempotent " nginx:latest " "nginx:latest" rfl).1,
   (validate_image_trim_idempotent " nginx:latest " "nginx:latest" rfl).2⟩

/-- C8 counterexample: `"nginx\n"` contains the unsafe character `"\n"`, yet
the execution-time validator accepts it — `validate_input` strips the string
before the character scan, so surrounding `\n`/`\r`/whitespace never trigger
the unsafe-character error. -/
theorem trivy_unsafe_chars_counterexample :
    hasUnsafeChar "nginx\n".data = true ∧
    trivy_validate_input "nginx\n" = .ok true :=
  ⟨by decide, rfl⟩

/-- C8 amended: a string whose *stripped* form contains one of
`$ ; & | ` \n \r` and is at most 500 characters long is rejected with the
unsafe-characters error. -/
theorem trivy_unsafe_chars_amended (s : String)
    (hc : hasUnsafeChar (stripL s.data) = true)
    (hlen : (stripL s.data).length ≤ 500) :
    trivy_validate_input s = .error "Invalid characters in image name" := by
  have hne : (stripL s.data).isEmpty = false := by
    rcases hempty : stripL s.data with _ | ⟨c, cs⟩
    · rw [hempty] at hc
      simp [hasUnsafeChar] at hc
    · rfl
  simp only [trivy_validate_input, hne, Bool.false_or]
  rw [decide_eq_false (by omega : ¬(stripL s.data).length > 500)]
  simp only [Bool.false_eq_true, if_false, hc, if_true]

/-- Witness for `trivy_unsafe_chars_amended` at `"nginx;ls"`. -/
theorem trivy_unsafe_chars_amended_witness :
    (hasUnsafeChar (stripL "nginx;ls".data) = true ∧
     (stripL "nginx;ls".data).length ≤ 500) ∧
    trivy_validate_input "nginx;ls" = .error "Invalid characters in image name" :=
  ⟨⟨by decide, by decide⟩,
   trivy_unsafe_chars_amended "nginx;ls" (by decide) (by decide)⟩

/-- C4 counterexample: `"evil.example.com/nginx"` is rejected by the
execution-time validator (registry allow-list), yet scan submission accepts
it and persists a `pending` job — no 422 and a job is created. -/
theorem submit_skips_registry_counterexample :
    submit_docker_scan "evil.example.com/nginx" 1 2 =
      .ok { id := 1, user_id := 2, scan_type := "trivy", status := "pending",
            input_image := "evil.example.com/nginx" } ∧
    trivy_validate_input "evil.example.com/nginx" =
      .error "Registry not allowed: evil.example.com/" :=
  ⟨rfl, rfl⟩

/-- C4 amended: only the emptiness, length and unsafe-character rules are
applied at submission time: a submission succeeds exactly when those three
hold (regardless of the structural grammar or the registry allow-list, which
run only at execution time); when the request-time validator rejects, the
submission fails with its error and no job is created; when it accepts, the
persisted job is `pending` and stores the stripped target. -/
theorem submit_docker_scan_scope (image : String) (scanId userId : Nat) :
    ((∃ job, submit_docker_scan image scanId userId = .ok job) ↔
      (pyStrip image ≠ "" ∧ image.length ≤ 500 ∧
        hasUnsafeChar image.data = false)) ∧
    (∀ e, validate_image image = .error e →
      submit_docker_scan image scanId userId = .error e) ∧
    (∀ job, submit_docker_scan image scanId userId = .ok job →
      job = { id := scanId, user_id := userId, scan_type := "trivy",
              status := "pending", input_image := pyStrip image }) := by
  unfold submit_docker_scan
  cases hv : validate_image image with
  | error e =>
    refine ⟨⟨?_, ?_⟩, ?_, ?_⟩
    · rintro ⟨job, hjob⟩
      simp at hjob
    · intro hcond
      have := (validate_image_ok_iff image).1.mpr hcond
      rw [hv] at this
      simp at this
    · intro e' he'
      injection he' with h
      subst h
      rfl
    · intro job hjob
      simp at hjob
  | ok img =>
    have himg : img = pyStrip image := (validate_image_ok_iff image).2 img hv
    subst himg
    refine ⟨⟨?_, ?_⟩, ?_, ?_⟩
    · intro _
      exact (validate_image_ok_iff image).1.mp hv
    · intro _
      exact ⟨_, rfl⟩
    · intro e' he'
      simp at he'
    · intro job hjob
      simp at hjob
      rw [← hjob]

/-- Witness for `submit_docker_scan_scope` at `"nginx:latest"`. -/
theorem submit_docker_scan_scope_witness :
    ∃ job, submit_docker_scan "nginx:latest" 5 6 = .ok job :=
  (submit_docker_scan_scope "nginx:latest" 5 6).1.mpr
    ⟨by decide, by decide, by decide⟩

/-- C9: deleting a `pending`/`running` job always fails with 400 and leaves
the store unchanged; deleting a terminal (`completed`/`failed`) job owned by
the caller succeeds with 204 and removes the record; a job that is absent or
owned by a different principal gives the same 404 in both cases, with the
store unchanged. -/
theorem delete_scan_spec (store : List StoredScan) (scanId userId : Nat) :
    (∀ scan,
      store.find? (fun r => r.id == scanId && r.user_id == userId) = some scan →
      ((scan.status = "pending" ∨ scan.status = "running") →
        delete_scan store scanId userId = (400, store)) ∧
      (scan.status ≠ "pending" → scan.status ≠ "running" →
        delete_scan store scanId userId =
          (204, store.filter (fun r => !(r.id == scanId))) ∧
        ∀ r ∈ (delete_scan store scanId userId).2, r.id ≠ scanId)) ∧
    ((∀ r ∈ store, ¬(r.id = scanId ∧ r.user_id = userId)) →
      delete_scan store scanId userId = (404, store)) := by
  constructor
  · intro scan hfind
    constructor
    · intro hst
      simp only [delete_scan, hfind, if_pos hst]
    · intro h1 h2
      have hcond : ¬(scan.status = "pending" ∨ scan.status = "running") := by
        tauto
      refine ⟨by simp only [delete_scan, hfind, if_neg hcond], ?_⟩
      intro r hr
      simp only [delete_scan, hfind, if_neg hcond] at hr
      rw [List.mem_filter] at hr
      simpa using hr.2
  · intro habs
    have hnone :
        store.find? (fun r => r.id == scanId && r.user_id == userId) = none :=
      List.find?_eq_none.mpr (fun r hr => by simpa using habs r hr)
    simp only [delete_scan, hnone]

/-- Witness for `delete_scan_spec`: all three branches at concrete stores. -/
theorem delete_scan_spec_witness :
    delete_scan [⟨1, 2, "completed"⟩] 1 2 = (204, []) ∧
    delete_scan [⟨3, 2, "running"⟩] 3 2 = (400, [⟨3, 2, "running"⟩]) ∧
    delete_scan [⟨4, 2, "failed"⟩] 4 7 = (404, [⟨4, 2, "failed"⟩]) := by
  refine ⟨?_, ?_, ?_⟩
  · have h := ((delete_scan_spec [⟨1, 2, "completed"⟩] 1 2).1
      ⟨1, 2, "completed"⟩ (by decide)).2 (by decide) (by decide)
    rw [h.1]
    rfl
  · exact ((delete_scan_spec [⟨3, 2, "running"⟩] 3 2).1
      ⟨3, 2, "running"⟩ (by decide)).1 (by decide)
  · exact (delete_scan_spec [⟨4, 2, "failed"⟩] 4 7).2 (by decide)

/-- C5 (bug evidence): after a delivery that marked the job `failed`, the
redelivery permitted by `task_acks_late`/`task_reject_on_worker_lost`
re-runs the task, whose unconditional `running` update neither checks the
terminal status nor clears the old fields: the row is then observable with
`status = "running"` while the stale error message is still present,
violating the claimed invariant (`error_message` non-null iff `failed`). -/
theorem redelivered_row_violates_invariant :
    ReachableRow redeliveredFailedRow ∧
    redeliveredFailedRow.status = "running" ∧
    redeliveredFailedRow.error_message =
      some "Scan timed out: Scan timed out after 300 seconds" ∧
    ¬((redeliveredFailedRow.results ≠ none ↔
        redeliveredFailedRow.status = "completed") ∧
      (redeliveredFailedRow.error_message ≠ none ↔
        redeliveredFailedRow.status = "failed")) :=
  ⟨ReachableRow.midDelivery
    (ReachableRow.afterDelivery ReachableRow.created 3 7
      (.timeoutFailure "Scan timed out after 300 seconds")) 11,
   rfl, rfl, by decide⟩

/-- C2 (bug evidence): when the single scan attempt of a delivery times out,
the task marks the job `failed` at once — one scanner invocation, no retry,
no backoff — and re-raises; and the retry options in app/core/celery.py are
assigned under the misspelled name `task_aut_retry_for` (with its
companions), not under any name Celery's per-task automatic retry uses
(`autoretry_for` passed to the task decorator). -/
theorem no_retry_timeout_marks_failed :
    (execute_trivy_scan initialScanRow 3 7
        (.timeoutFailure "Scan timed out after 300 seconds")).row =
      { status := "failed", results := none,
        error_message := some "Scan timed out: Scan timed out after 300 seconds",
        started_at := some 3, completed_at := some 7 } ∧
    (execute_trivy_scan initialScanRow 3 7
        (.timeoutFailure "Scan timed out after 300 seconds")).raised = true ∧
    (execute_trivy_scan initialScanRow 3 7
        (.timeoutFailure "Scan timed out after 300 seconds")).scan_calls = 1 ∧
    "task_aut_retry_for" ∈ celeryRetryConfKeys ∧
    "task_autoretry_for" ∉ celeryRetryConfKeys :=
  ⟨rfl, rfl, rfl, by decide, by decide⟩

/-- C1 (bug evidence): the tally compares the *uppercased* severity of each
finding against the summary dict's *lowercase* keys, so no bucket is ever
incremented.  On the repository's own test input — whose test asserts
critical=1, high=2, medium=1 — every bucket is zero and the bucket sum is
0 ≠ 4; and any finding list whose severities are normalized severity values
(as `_normalize_findings` always produces) yields the all-zero summary. -/
theorem summary_buckets_never_increment :
    (scanResultSummary testFindings = zeroSummary ∧
     sumSummary (scanResultSummary testFindings) = 0 ∧
     testFindings.length = 4) ∧
    (∀ findings : List FindingD,
      (∀ f ∈ findings, ∃ v ∈ severityValues, f.severity = some v) →
      scanResultSummary findings = zeroSummary) := by
  refine ⟨by decide, ?_⟩
  intro findings hf
  unfold scanResultSummary
  suffices h : ∀ (fs : List FindingD) (acc : Summary),
      (∀ f ∈ fs, ∃ v ∈ severityValues, f.severity = some v) →
      fs.foldl
        (fun summary finding =>
          let severity := pyUpper (finding.severity.getD "INFO")
          if severity ∈ summaryKeysL then bumpSummary summary severity
          else summary)
        acc = acc by
    exact h findings zeroSummary hf
  intro fs
  induction fs with
  | nil =>
    intro acc _
    rfl
  | cons f rest ih =>
    intro acc hall
    obtain ⟨v, hvmem, hsev⟩ := hall f (by simp)
    have hrest : ∀ g ∈ rest, ∃ w ∈ severityValues, g.severity = some w :=
      fun g hg => hall g (by simp [hg])
    simp only [List.foldl_cons, hsev, Option.getD_some]
    simp only [severityValues, List.mem_cons, List.not_mem_nil, or_false]
      at hvmem
    rcases hvmem with rfl | rfl | rfl | rfl | rfl <;>
      · rw [if_neg (by decide)]
        exact ih acc hrest

/-- Witness for `summary_buckets_never_increment`: the normalized list
`testFindings` yields the all-zero summary. -/
theorem summary_buckets_never_increment_witness :
    scanResultSummary testFindings = zeroSummary :=
  summary_buckets_never_increment.2 testFindings (by decide)

/-- C7 counterexample: a decoded top-level object *without* the known
`"Results"` key is accepted as-is by the parse step, not rejected with a
`ParseError`. -/
theorem parse_accepts_keyless_object :
    parse_trivy_output
        (fun _ => .ok (Json.obj [("SchemaVersion", Json.num 2)])) "x" =
      .ok (Json.obj [("SchemaVersion", Json.num 2)]) := rfl

/-- C7 amended: the parse step accepts a bare sequence (wrapped under the
known key `"Results"`) and *any* top-level object, whether or not it
contains that key (an absent key is treated downstream as an empty result
list); any other top-level value yields a `ParseError` without a snippet;
malformed JSON yields a `ParseError` carrying at most the first 500
characters of the payload, never an unbounded amount. -/
theorem parse_trivy_output_spec (loads : String → Except String Json)
    (raw : String) :
    (∀ elems, loads raw = .ok (.arr elems) →
      parse_trivy_output loads raw = .ok (.obj [("Results", .arr elems)])) ∧
    (∀ fields, loads raw = .ok (.obj fields) →
      parse_trivy_output loads raw = .ok (.obj fields)) ∧
    (∀ d, loads raw = .ok d → jsonTopScalar d = true →
      parse_trivy_output loads raw =
        .error { message := "Unexpected output format from Trivy",
                 raw_output := none }) ∧
    (∀ e, loads raw = .error e →
      parse_trivy_output loads raw =
        .error { message := "Failed to parse Trivy JSON output: " ++ e,
                 raw_output := some ⟨raw.data.take 500⟩ } ∧
      (raw.data.take 500).length ≤ 500) := by
  refine ⟨?_, ?_, ?_, ?_⟩
  · intro elems h
    simp only [parse_trivy_output, h]
  · intro fields h
    simp only [parse_trivy_output, h]
  · intro d h hs
    cases d with
    | null => simp only [parse_trivy_output, h]
    | bool b => simp only [parse_trivy_output, h]
    | num n => simp only [parse_trivy_output, h]
    | str s => simp only [parse_trivy_output, h]
    | arr elems => simp [jsonTopScalar] at hs
    | obj fields => simp [jsonTopScalar] at hs
  · intro e h
    refine ⟨by simp only [parse_trivy_output, h], ?_⟩
    rw [List.length_take]
    exact min_le_left _ _

/-- Witness for `parse_trivy_output_spec` on malformed JSON. -/
theorem parse_trivy_output_spec_witness :
    parse_trivy_output (fun _ => .error "Expecting value") "oops" =
      .error { message := "Failed to parse Trivy JSON output: Expecting value",
               raw_output := some "oops" } :=
  ((parse_trivy_output_spec (fun _ => .error "Expecting value") "oops").2.2.2
    "Expecting value" rfl).1

/-- C10: hashing and verification truncate the key's UTF-8 encoding to its
first 72 bytes, so for any two keys agreeing on those bytes verification
gives the same answer against every stored hash; in particular (for any
bcrypt pair satisfying the hash/check round trip) a key longer than 72
bytes verifies successfully against the hash of any extension of its
72-byte prefix. -/
theorem api_key_72_byte_truncation
    (bcryptHash : List Nat → String) (bcryptCheck : List Nat → String → Bool)
    (hround : ∀ b, bcryptCheck b (bcryptHash b) = true)
    (k₁ k₂ : String)
    (hpre : (utf8Bytes k₁).take 72 = (utf8Bytes k₂).take 72) :
    (∀ hashed, verify_api_key bcryptCheck k₁ hashed =
      verify_api_key bcryptCheck k₂ hashed) ∧
    verify_api_key bcryptCheck k₂ (hash_api_key bcryptHash k₁) = true := by
  have htr : ∀ s : String,
      (if (utf8Bytes s).length > 72 then (utf8Bytes s).take 72
       else utf8Bytes s) = (utf8Bytes s).take 72 := by
    intro s
    split_ifs with h
    · rfl
    · exact (List.take_of_length_le (by omega)).symm
  constructor
  · intro hashed
    simp only [verify_api_key]
    rw [htr k₁, htr k₂, hpre]
  · simp only [verify_api_key, hash_api_key]
    rw [htr k₁, htr k₂, hpre]
    exact hround _

/-- Witness for `api_key_72_byte_truncation`: a 73-byte key and a 75-byte
key agreeing on the first 72 bytes. -/
theorem api_key_72_byte_truncation_witness :
    (utf8Bytes longKeyA).take 72 = (utf8Bytes longKeyB).take 72 ∧
    verify_api_key toyBcryptCheck longKeyB
      (hash_api_key toyBcryptHash longKeyA) = true :=
  ⟨by decide,
   (api_key_72_byte_truncation toyBcryptHash toyBcryptCheck
     (fun b => by simp [toyBcryptCheck]) longKeyA longKeyB (by decide)).2⟩

end Secapi
